import Mathlib

/-!
# TradPredict — verification of the core scoring / backtest logic

Shallow embedding of `src/model.py` (`DRLTradingModel`) and the relevant
call-site in `src/app.py` (`instantiate_model`).

Modelling conventions:

* Python floats are embedded as exact rationals (`ℚ`); every arithmetic
  expression is translated literally from the source.
* A pandas row becomes the record `StockRecord`.  The numeric columns are
  carried as `ℚ` fields: in this embedding the currency columns
  (`Open`, `High`, `Low`, `LTP`, `Turnover (crs.)`, `52w H`, `52w L`)
  arrive already numeric, so the comma-stripping `astype(float)` loop of
  `_process_data` (which only runs when a column has dtype `object`) is the
  identity and cannot raise; string parsing is outside the claims considered
  here.
* `_process_data` overwrites the two derived columns `Momentum_Score` and
  `Volume_Ratio`; a raw row simply carries arbitrary (dead) values in those
  fields before preparation.
* Python's `int(...)` truncates toward zero; it is modelled by `pyInt`.
* `run_policy_and_backtest` returns `(metrics, action_log)` on success and
  `(None, "Stock symbol not found in data.")` when the symbol is absent; this
  is modelled with `Except String Metrics`.  The `action_log` strings are
  pure presentation (their contents feed no computation) and are not
  modelled; the one branch that inspects data to pick a log wording
  (`hypothetical_return_pct < 0 and drl_score < 0` inside the SELL arm)
  affects only the log text, never the metrics.
-/

namespace TradPredict

/-- One row of the stock table, with the columns `_process_data` and
`run_policy_and_backtest` read, plus the two derived columns the preparer
writes.  Numeric cells are exact rationals. -/
structure StockRecord where
  symbol : String            -- 'Symbol'
  openPrice : ℚ              -- 'Open'
  high : ℚ                   -- 'High'
  low : ℚ                    -- 'Low'
  ltp : ℚ                    -- 'LTP'
  turnover : ℚ               -- 'Turnover (crs.)'
  week52High : ℚ             -- '52w H'
  week52Low : ℚ              -- '52w L'
  change30d : ℚ              -- '30 d % chng'
  change365d : ℚ             -- '365 d % chng'
  volumeLacs : ℚ             -- 'Volume (lacs)'
  momentumScore : ℚ          -- 'Momentum_Score'  (written by _process_data)
  volumeRatio : ℚ            -- 'Volume_Ratio'    (written by _process_data)
  deriving Repr, DecidableEq

/-- Error taxonomy of the specification's preparation contract.  The code of
`_process_data` contains no `raise` at all; on the numeric domain modelled
here it never produces either error (see `process_data`). -/
inductive PrepError where
  | malformedInput
  | emptyDataset
  deriving Repr, DecidableEq

/-- `df['Volume (lacs)'].mean()` — dataset-wide mean of the volume column.
(For zero rows pandas yields NaN but raises nothing; the per-row division is
then vacuous.  In `ℚ` the corresponding `sum / 0` is the junk value `0`,
equally never used on zero rows.) -/
def volume_mean (rows : List StockRecord) : ℚ :=
  (rows.map (·.volumeLacs)).sum / (rows.length : ℚ)

/-- The `Momentum_Score` lambda of `_process_data`:
`x['30 d % chng'] / x['365 d % chng'] if abs(x['365 d % chng']) > 0.01 else 0`. -/
def momentum_score (r : StockRecord) : ℚ :=
  if |r.change365d| > 1/100 then r.change30d / r.change365d else 0

/-- One row after `_process_data`: the derived columns are (over)written,
every other column is untouched.  `m` is the dataset-wide volume mean. -/
def prepare_row (m : ℚ) (r : StockRecord) : StockRecord :=
  { r with momentumScore := momentum_score r
         , volumeRatio := r.volumeLacs / m }

/-- `DRLTradingModel._process_data`: cleans the currency columns (identity on
the numeric domain modelled here), writes `Momentum_Score` and
`Volume_Ratio`, and returns the frame.  pandas raises nothing on a zero-row
frame (the row-wise `apply` is vacuous and `mean()` of an empty series is
NaN, with no exception), so the function is total: it always returns
`Except.ok`.  The `Except` wrapper records the failure channel of the
specification's `prepare` contract. -/
def process_data (rows : List StockRecord) : Except PrepError (List StockRecord) :=
  Except.ok (rows.map (prepare_row (volume_mean rows)))

/-- The action strings of `_generate_signal`. -/
inductive Signal where
  | BUY
  | SELL
  | HOLD
  deriving Repr, DecidableEq

/-- The decision score computed (identically) in `_generate_signal` and as
`drl_score` in `run_policy_and_backtest`:
`0.5 * row['365 d % chng'] / 100 + 0.3 * row['30 d % chng'] / 100 + 0.2 * (row['Volume_Ratio'] - 1)`. -/
def decision_score (r : StockRecord) : ℚ :=
  5/10 * r.change365d / 100 + 3/10 * r.change30d / 100 + 2/10 * (r.volumeRatio - 1)

/-- `DRLTradingModel._generate_signal`: threshold the decision score. -/
def generate_signal (r : StockRecord) : Signal :=
  if decision_score r > 15/100 then Signal.BUY
  else if decision_score r < -(15/100) then Signal.SELL
  else Signal.HOLD

/-- Python `int(q)` on a float: truncation toward zero. -/
def pyInt (q : ℚ) : ℤ :=
  if 0 ≤ q then ⌊q⌋ else ⌈q⌉

/-- The state of a constructed `DRLTradingModel`: the prepared frame
`self.df`, `self.initial_capital`, and `self.risk_free_rate`. -/
structure DRLTradingModel where
  df : List StockRecord
  initial_capital : ℚ
  risk_free_rate : ℚ
  deriving Repr, DecidableEq

/-- `DRLTradingModel.__init__`: prepares the frame and fixes
`risk_free_rate = 0.05 / 252`. -/
def mkTradingModel (stock_df : List StockRecord) (initial_capital : ℚ) :
    Except PrepError DRLTradingModel :=
  (process_data stock_df).map fun d =>
    { df := d, initial_capital := initial_capital, risk_free_rate := (5/100) / 252 }

/-- `shares_to_buy = int(self.initial_capital * 0.2 / ltp)` of the BUY arm. -/
def shares_to_buy (m : DRLTradingModel) (ltp : ℚ) : ℤ :=
  pyInt (m.initial_capital * (2/10) / ltp)

/-- The `metrics` dict returned by `run_policy_and_backtest`. -/
structure Metrics where
  symbol : String            -- 'Symbol'
  ltp : ℚ                    -- 'LTP'
  chng30d : ℚ                -- '30d % Chng'
  chng365d : ℚ               -- '365d % Chng'
  drl_score : ℚ              -- 'DRL_Score'
  final_signal : Signal      -- 'Final_Signal'
  initial_capital : ℚ        -- 'Initial_Capital'
  final_capital : ℚ          -- 'Final_Capital'
  cumulative_return : ℚ      -- 'Cumulative_Return'
  sharpe_ratio : ℚ           -- 'Sharpe_Ratio'
  simulated_profit : ℚ       -- 'Simulated_Profit'
  deriving Repr, DecidableEq

/-- The `(simulated_profit, cumulative_return, final_capital)` triple of
`run_policy_and_backtest`: initialised to `(0.0, 0.0, initial_capital)` and
overwritten only in the BUY arm. -/
def backtest_outcome (m : DRLTradingModel) (r : StockRecord) : ℚ × ℚ × ℚ :=
  match generate_signal r with
  | Signal.BUY =>
      let shares := shares_to_buy m r.ltp
      let investment := (shares : ℚ) * r.ltp
      let simulated_profit := investment * (r.change30d / 100)
      (simulated_profit, simulated_profit / m.initial_capital,
        m.initial_capital + simulated_profit)
  | Signal.SELL => (0, 0, m.initial_capital)
  | Signal.HOLD => (0, 0, m.initial_capital)

/-- The `metrics` dict built from the looked-up row `stock_data`.
`sharpe_ratio = (cumulative_return - self.risk_free_rate) / 0.1`, reported
as `0.0` unless `cumulative_return > 0`. -/
def backtest_metrics (m : DRLTradingModel) (symbol : String)
    (stock_data : StockRecord) : Metrics :=
  let out := backtest_outcome m stock_data
  let sharpe := (out.2.1 - m.risk_free_rate) / (1/10)
  { symbol := symbol
  , ltp := stock_data.ltp
  , chng30d := stock_data.change30d
  , chng365d := stock_data.change365d
  , drl_score := decision_score stock_data
  , final_signal := generate_signal stock_data
  , initial_capital := m.initial_capital
  , final_capital := out.2.2
  , cumulative_return := out.2.1
  , sharpe_ratio := if out.2.1 > 0 then sharpe else 0
  , simulated_profit := out.1 }

/-- `DRLTradingModel.run_policy_and_backtest`: absent symbol yields
`(None, "Stock symbol not found in data.")`, otherwise the metrics of the
first row whose `Symbol` matches (`.iloc[0]` on the filtered frame). -/
def run_policy_and_backtest (m : DRLTradingModel) (symbol : String) :
    Except String Metrics :=
  match m.df.find? (fun r => r.symbol == symbol) with
  | none => Except.error "Stock symbol not found in data."
  | some stock_data => Except.ok (backtest_metrics m symbol stock_data)

/-- The method `run_policy_and_backtest` assigns no attribute of `self`
(it only reads `self.df`, `self.initial_capital`, `self.risk_free_rate`);
its state effect is modelled by also returning the model after the call. -/
def run_policy_state (m : DRLTradingModel) (symbol : String) :
    Except String Metrics × DRLTradingModel :=
  (run_policy_and_backtest m symbol, m)

/-- `src/app.py`'s `instantiate_model(data, initial_capital)`:
`DRLTradingModel(data.copy(), initial_capital)`.  pandas column assignment in
`_process_data` mutates the frame it is handed in place, so the constructor's
argument object ends up holding the processed frame — but `instantiate_model`
passes a copy, leaving the caller's `data` untouched.  The pair returned here
is `(the constructed model, the value of the caller's argument after the
call)`. -/
def instantiate_model (data : List StockRecord) (initial_capital : ℚ) :
    Except PrepError DRLTradingModel × List StockRecord :=
  (mkTradingModel data initial_capital, data)

/-! ## Concrete sample data (used by the witnesses) -/

/-- A raw row whose irrelevant columns are zero. -/
def rawRow (sym : String) (c30 c365 vol ltpv : ℚ) : StockRecord :=
  { symbol := sym, openPrice := 0, high := 0, low := 0, ltp := ltpv,
    turnover := 0, week52High := 0, week52Low := 0,
    change30d := c30, change365d := c365, volumeLacs := vol,
    momentumScore := 0, volumeRatio := 0 }

/-- A prepared row whose irrelevant columns are zero. -/
def prepRow (sym : String) (c30 c365 vol ltpv ms vr : ℚ) : StockRecord :=
  { symbol := sym, openPrice := 0, high := 0, low := 0, ltp := ltpv,
    turnover := 0, week52High := 0, week52Low := 0,
    change30d := c30, change365d := c365, volumeLacs := vol,
    momentumScore := ms, volumeRatio := vr }

/-- Raw sample: 30-day change 10 %, 365-day change 50 %, volume 2 lacs,
LTP 2500.  The spec's worked BUY example. -/
def buyRaw : StockRecord := rawRow "RELIANCE" 10 50 2 2500

/-- `buyRaw` after preparation in a one-row dataset (volume ratio 1). -/
def buyPrep : StockRecord := prepRow "RELIANCE" 10 50 2 2500 (1/5) 1

/-- One-row model with initial capital 1,000,000. -/
def buyModel : DRLTradingModel :=
  { df := [buyPrep], initial_capital := 1000000, risk_free_rate := (5/100)/252 }

/-- The metrics of `run_policy_and_backtest buyModel "RELIANCE"`:
score 0.28, BUY, 80 shares, profit 20,000, final 1,020,000, return 0.02,
sharpe (0.02 - 0.05/252)/0.1 = 499/2520. -/
def buyMetrics : Metrics :=
  { symbol := "RELIANCE"
  , ltp := 2500
  , chng30d := 10
  , chng365d := 50
  , drl_score := 7/25
  , final_signal := Signal.BUY
  , initial_capital := 1000000
  , final_capital := 1020000
  , cumulative_return := 1/50
  , sharpe_ratio := 499/2520
  , simulated_profit := 20000 }

/-- Raw sample with both changes zero: classifies HOLD. -/
def holdRaw : StockRecord := rawRow "HOLDCO" 0 0 5 100

/-- `holdRaw` after preparation in a one-row dataset. -/
def holdPrep : StockRecord := prepRow "HOLDCO" 0 0 5 100 0 1

/-- One-row model holding `holdPrep`. -/
def holdModel : DRLTradingModel :=
  { df := [holdPrep], initial_capital := 1000000, risk_free_rate := (5/100)/252 }

/-- The metrics of `run_policy_and_backtest holdModel "HOLDCO"`: score 0,
HOLD, zero outcome, reported sharpe 0. -/
def holdMetrics : Metrics :=
  { symbol := "HOLDCO"
  , ltp := 100
  , chng30d := 0
  , chng365d := 0
  , drl_score := 0
  , final_signal := Signal.HOLD
  , initial_capital := 1000000
  , final_capital := 1000000
  , cumulative_return := 0
  , sharpe_ratio := 0
  , simulated_profit := 0 }

/-- Prepared row whose decision score is exactly 0.15
(`0.5*30/100 + 0.3*0/100 + 0.2*(1-1)`): the BUY boundary. -/
def boundaryPrep : StockRecord := prepRow "BOUND" 0 30 1 100 0 1

/-- Raw sample sitting exactly on the momentum guard boundary:
`|change365d| = 0.01`. -/
def momRaw : StockRecord := rawRow "MOMX" 7 (1/100) 3 50

/-- `momRaw` after preparation in a one-row dataset: the guard takes the
zero branch. -/
def momPrep : StockRecord := prepRow "MOMX" 7 (1/100) 3 50 0 1

/-- Prepared row that classifies BUY (score 0.53) but whose LTP 300,000
exceeds 20 % of a 1,000,000 capital. -/
def pricyPrep : StockRecord := prepRow "PRICY" 10 100 4 300000 (1/10) 1

/-- One-row model holding `pricyPrep`. -/
def pricyModel : DRLTradingModel :=
  { df := [pricyPrep], initial_capital := 1000000, risk_free_rate := (5/100)/252 }

/-! ## Helper lemmas -/

/-- A successful `run_policy_and_backtest` is the metrics of the first row
matching the symbol. -/
theorem run_ok_elim {m : DRLTradingModel} {sym : String} {met : Metrics}
    (h : run_policy_and_backtest m sym = Except.ok met) :
    ∃ r, m.df.find? (fun x => x.symbol == sym) = some r ∧
      met = backtest_metrics m sym r := by
  cases hfind : m.df.find? (fun x => x.symbol == sym) with
  | none => simp [run_policy_and_backtest, hfind] at h
  | some r =>
      simp [run_policy_and_backtest, hfind] at h
      exact ⟨r, rfl, h.symm⟩

theorem bm_final_signal (m : DRLTradingModel) (sym : String) (r : StockRecord) :
    (backtest_metrics m sym r).final_signal = generate_signal r := rfl

theorem bm_drl_score (m : DRLTradingModel) (sym : String) (r : StockRecord) :
    (backtest_metrics m sym r).drl_score = decision_score r := rfl

theorem bm_simulated_profit (m : DRLTradingModel) (sym : String) (r : StockRecord) :
    (backtest_metrics m sym r).simulated_profit = (backtest_outcome m r).1 := rfl

theorem bm_final_capital (m : DRLTradingModel) (sym : String) (r : StockRecord) :
    (backtest_metrics m sym r).final_capital = (backtest_outcome m r).2.2 := rfl

theorem bm_cumulative_return (m : DRLTradingModel) (sym : String) (r : StockRecord) :
    (backtest_metrics m sym r).cumulative_return = (backtest_outcome m r).2.1 := rfl

theorem bm_initial_capital (m : DRLTradingModel) (sym : String) (r : StockRecord) :
    (backtest_metrics m sym r).initial_capital = m.initial_capital := rfl

theorem bm_sharpe (m : DRLTradingModel) (sym : String) (r : StockRecord) :
    (backtest_metrics m sym r).sharpe_ratio =
      if (backtest_outcome m r).2.1 > 0 then
        ((backtest_outcome m r).2.1 - m.risk_free_rate) / (1/10)
      else 0 := rfl

theorem backtest_outcome_of_buy {r : StockRecord} (m : DRLTradingModel)
    (h : generate_signal r = Signal.BUY) :
    backtest_outcome m r =
      (((shares_to_buy m r.ltp : ℚ) * r.ltp) * (r.change30d / 100),
        ((shares_to_buy m r.ltp : ℚ) * r.ltp) * (r.change30d / 100) / m.initial_capital,
        m.initial_capital +
          ((shares_to_buy m r.ltp : ℚ) * r.ltp) * (r.change30d / 100)) := by
  unfold backtest_outcome
  rw [h]

theorem backtest_outcome_of_sell {r : StockRecord} (m : DRLTradingModel)
    (h : generate_signal r = Signal.SELL) :
    backtest_outcome m r = (0, 0, m.initial_capital) := by
  unfold backtest_outcome
  rw [h]

theorem backtest_outcome_of_hold {r : StockRecord} (m : DRLTradingModel)
    (h : generate_signal r = Signal.HOLD) :
    backtest_outcome m r = (0, 0, m.initial_capital) := by
  unfold backtest_outcome
  rw [h]

/-- `__init__` always sets `risk_free_rate = 0.05/252` and stores the given
capital. -/
theorem mk_model_fields {rows : List StockRecord} {cap : ℚ} {m : DRLTradingModel}
    (h : mkTradingModel rows cap = Except.ok m) :
    m.risk_free_rate = (5/100)/252 ∧ m.initial_capital = cap := by
  simp [mkTradingModel, process_data, Except.map] at h
  exact ⟨by rw [← h], by rw [← h]⟩

/-- `prepare_row` touches only the two derived columns. -/
theorem prepare_row_idem (M : ℚ) (r : StockRecord) :
    prepare_row M (prepare_row M r) = prepare_row M r := rfl

/-- The volume mean is computed from a column `prepare_row` preserves. -/
theorem volume_mean_map_prepare (M : ℚ) (rows : List StockRecord) :
    volume_mean (rows.map (prepare_row M)) = volume_mean rows := by
  simp only [volume_mean, List.map_map, List.length_map]
  rfl

theorem prepare_row_change30d (M : ℚ) (r : StockRecord) :
    (prepare_row M r).change30d = r.change30d := rfl

theorem prepare_row_change365d (M : ℚ) (r : StockRecord) :
    (prepare_row M r).change365d = r.change365d := rfl

theorem prepare_row_volumeLacs (M : ℚ) (r : StockRecord) :
    (prepare_row M r).volumeLacs = r.volumeLacs := rfl

theorem prepare_row_momentumScore (M : ℚ) (r : StockRecord) :
    (prepare_row M r).momentumScore = momentum_score r := rfl

theorem prepare_row_volumeRatio (M : ℚ) (r : StockRecord) :
    (prepare_row M r).volumeRatio = r.volumeLacs / M := rfl

/-! ## Claims -/

/-- C1: For every prepared record, the composite decision score computed by
decide(symbol) equals exactly `0.5*(change365d/100) + 0.3*(change30d/100) +
0.2*(volumeRatio - 1)`, where change365d and change30d are the record's raw
percentage fields and volumeRatio is the derived dataset-relative volume
feature (`volumeLacs / mean volumeLacs`, established by the second
conjunct). -/
theorem claim1_decision_score_formula :
    (∀ (m : DRLTradingModel) (sym : String) (r : StockRecord),
      m.df.find? (fun x => x.symbol == sym) = some r →
      ∃ met, run_policy_and_backtest m sym = Except.ok met ∧
        met.drl_score =
          5/10 * (r.change365d / 100) + 3/10 * (r.change30d / 100)
            + 2/10 * (r.volumeRatio - 1)) ∧
    (∀ (rows out : List StockRecord) (r : StockRecord),
      process_data rows = Except.ok out → r ∈ out →
      r.volumeRatio = r.volumeLacs / volume_mean rows) := by
  constructor
  · intro m sym r hfind
    refine ⟨backtest_metrics m sym r, by simp [run_policy_and_backtest, hfind], ?_⟩
    rw [bm_drl_score]
    unfold decision_score
    ring
  · intro rows out r hpd hmem
    have hout : out = rows.map (prepare_row (volume_mean rows)) := by
      simpa [process_data] using hpd.symm
    subst hout
    rcases List.mem_map.mp hmem with ⟨a, _, rfl⟩
    rw [prepare_row_volumeRatio, prepare_row_volumeLacs]

/-- Witness for C1 at the concrete one-row RELIANCE dataset. -/
theorem claim1_witness :
    (buyModel.df.find? (fun x => x.symbol == "RELIANCE") = some buyPrep ∧
      ∃ met, run_policy_and_backtest buyModel "RELIANCE" = Except.ok met ∧
        met.drl_score =
          5/10 * (buyPrep.change365d / 100) + 3/10 * (buyPrep.change30d / 100)
            + 2/10 * (buyPrep.volumeRatio - 1)) ∧
    (process_data [buyRaw] = Except.ok [buyPrep] ∧ buyPrep ∈ [buyPrep] ∧
      buyPrep.volumeRatio = buyPrep.volumeLacs / volume_mean [buyRaw]) := by
  have h1 : buyModel.df.find? (fun x => x.symbol == "RELIANCE") = some buyPrep := rfl
  have h2 : process_data [buyRaw] = Except.ok [buyPrep] := by
    norm_num [process_data, prepare_row, volume_mean, momentum_score,
      buyRaw, buyPrep, rawRow, prepRow]
  have h3 : buyPrep ∈ [buyPrep] := List.mem_singleton.mpr rfl
  exact ⟨⟨h1, claim1_decision_score_formula.1 _ _ _ h1⟩,
    h2, h3, claim1_decision_score_formula.2 _ _ _ h2 h3⟩

/-- C2: The signal classification uses strictly exclusive boundaries: for
every score, score > 0.15 yields BUY, score < -0.15 yields SELL, and all
other scores (including exactly 0.15 and -0.15) yield HOLD. -/
theorem claim2_threshold_classification :
    ∀ r : StockRecord,
      (generate_signal r = Signal.BUY ↔ decision_score r > 15/100) ∧
      (generate_signal r = Signal.SELL ↔ decision_score r < -(15/100)) ∧
      (generate_signal r = Signal.HOLD ↔
        (-(15/100) ≤ decision_score r ∧ decision_score r ≤ 15/100)) := by
  intro r
  unfold generate_signal
  split_ifs with h1 h2
  all_goals refine ⟨?_, ?_, ?_⟩
  all_goals simp
  all_goals try intro h
  all_goals try constructor
  all_goals linarith

/-- Witness for C2 at a record whose score is exactly the 0.15 boundary:
it is classified HOLD. -/
theorem claim2_witness :
    decision_score boundaryPrep = 15/100 ∧
    generate_signal boundaryPrep = Signal.HOLD := by
  have hs : decision_score boundaryPrep = 15/100 := by
    norm_num [decision_score, boundaryPrep, prepRow]
  refine ⟨hs, (claim2_threshold_classification boundaryPrep).2.2.mpr ?_⟩
  rw [hs]
  norm_num

/-- C3: For every decision classified BUY, decide computes
sharesToBuy = floor(0.2*initialCapital / ltp), investment = sharesToBuy*ltp,
simulatedProfit = investment*(change30d/100),
finalCapital = initialCapital + simulatedProfit and
cumulativeReturn = simulatedProfit / initialCapital (the positivity
hypotheses reflect the data model: ltp is a price, initialCapital a
non-negative capital; Python's int() truncation only agrees with floor on
non-negative quotients); in particular, for initialCapital = 1,000,000,
ltp = 2,500, change30d = 10 it returns sharesToBuy = 80,
investment = 200,000, simulatedProfit = 20,000, finalCapital = 1,020,000,
cumulativeReturn = 0.02 (the second conjunct, via `buyMetrics`). -/
theorem claim3_buy_backtest :
    (∀ (m : DRLTradingModel) (sym : String) (r : StockRecord),
      m.df.find? (fun x => x.symbol == sym) = some r →
      generate_signal r = Signal.BUY →
      0 < r.ltp → 0 ≤ m.initial_capital →
      ∃ met, run_policy_and_backtest m sym = Except.ok met ∧
        shares_to_buy m r.ltp = ⌊2/10 * m.initial_capital / r.ltp⌋ ∧
        met.simulated_profit =
          ((shares_to_buy m r.ltp : ℚ) * r.ltp) * (r.change30d / 100) ∧
        met.final_capital = m.initial_capital + met.simulated_profit ∧
        met.cumulative_return = met.simulated_profit / m.initial_capital) ∧
    (shares_to_buy buyModel (2500 : ℚ) = 80 ∧
      (shares_to_buy buyModel (2500 : ℚ) : ℚ) * 2500 = 200000 ∧
      run_policy_and_backtest buyModel "RELIANCE" = Except.ok buyMetrics) := by
  constructor
  · intro m sym r hfind hsig hltp hcap
    refine ⟨backtest_metrics m sym r,
      by simp [run_policy_and_backtest, hfind], ?_, ?_, ?_, ?_⟩
    · unfold shares_to_buy pyInt
      have hq : 0 ≤ m.initial_capital * (2/10) / r.ltp :=
        div_nonneg (mul_nonneg hcap (by norm_num)) hltp.le
      rw [if_pos hq, mul_comm m.initial_capital ((2:ℚ)/10)]
    · rw [bm_simulated_profit, backtest_outcome_of_buy m hsig]
    · rw [bm_final_capital, bm_simulated_profit, backtest_outcome_of_buy m hsig]
    · rw [bm_cumulative_return, bm_simulated_profit, backtest_outcome_of_buy m hsig]
  · refine ⟨?_, ?_, ?_⟩
    · norm_num [shares_to_buy, pyInt, buyModel]
    · norm_num [shares_to_buy, pyInt, buyModel]
    · norm_num [run_policy_and_backtest, backtest_metrics, backtest_outcome,
        shares_to_buy, pyInt, generate_signal, decision_score, buyModel, buyPrep,
        prepRow, buyMetrics, List.find?]

/-- Witness for C3 at the concrete RELIANCE BUY record. -/
theorem claim3_witness :
    buyModel.df.find? (fun x => x.symbol == "RELIANCE") = some buyPrep ∧
    generate_signal buyPrep = Signal.BUY ∧
    (0:ℚ) < buyPrep.ltp ∧ (0:ℚ) ≤ buyModel.initial_capital ∧
    (∃ met, run_policy_and_backtest buyModel "RELIANCE" = Except.ok met ∧
      shares_to_buy buyModel buyPrep.ltp =
        ⌊2/10 * buyModel.initial_capital / buyPrep.ltp⌋ ∧
      met.simulated_profit =
        ((shares_to_buy buyModel buyPrep.ltp : ℚ) * buyPrep.ltp)
          * (buyPrep.change30d / 100) ∧
      met.final_capital = buyModel.initial_capital + met.simulated_profit ∧
      met.cumulative_return = met.simulated_profit / buyModel.initial_capital) := by
  have h1 : buyModel.df.find? (fun x => x.symbol == "RELIANCE") = some buyPrep := rfl
  have h2 : generate_signal buyPrep = Signal.BUY := by
    norm_num [generate_signal, decision_score, buyPrep, prepRow]
  have h3 : (0:ℚ) < buyPrep.ltp := by norm_num [buyPrep, prepRow]
  have h4 : (0:ℚ) ≤ buyModel.initial_capital := by norm_num [buyModel]
  exact ⟨h1, h2, h3, h4, claim3_buy_backtest.1 _ _ _ h1 h2 h3 h4⟩

/-- C4: For every decision classified SELL or HOLD, decide returns
simulatedProfit = 0, finalCapital = initialCapital and cumulativeReturn = 0,
regardless of the value of change30d or any other field of the record. -/
theorem claim4_sell_hold_zero :
    ∀ (m : DRLTradingModel) (sym : String) (met : Metrics),
      run_policy_and_backtest m sym = Except.ok met →
      (met.final_signal = Signal.SELL ∨ met.final_signal = Signal.HOLD) →
      met.simulated_profit = 0 ∧ met.final_capital = m.initial_capital ∧
        met.cumulative_return = 0 := by
  intro m sym met hrun hsig
  obtain ⟨r, hfind, rfl⟩ := run_ok_elim hrun
  rw [bm_final_signal] at hsig
  cases hg : generate_signal r with
  | BUY => simp [hg] at hsig
  | SELL =>
      refine ⟨?_, ?_, ?_⟩
      · rw [bm_simulated_profit, backtest_outcome_of_sell m hg]
      · rw [bm_final_capital, backtest_outcome_of_sell m hg]
      · rw [bm_cumulative_return, backtest_outcome_of_sell m hg]
  | HOLD =>
      refine ⟨?_, ?_, ?_⟩
      · rw [bm_simulated_profit, backtest_outcome_of_hold m hg]
      · rw [bm_final_capital, backtest_outcome_of_hold m hg]
      · rw [bm_cumulative_return, backtest_outcome_of_hold m hg]

/-- Witness for C4 at the concrete HOLD record. -/
theorem claim4_witness :
    run_policy_and_backtest holdModel "HOLDCO" = Except.ok holdMetrics ∧
    (holdMetrics.final_signal = Signal.SELL ∨
      holdMetrics.final_signal = Signal.HOLD) ∧
    (holdMetrics.simulated_profit = 0 ∧
      holdMetrics.final_capital = holdModel.initial_capital ∧
      holdMetrics.cumulative_return = 0) := by
  have h1 : run_policy_and_backtest holdModel "HOLDCO" = Except.ok holdMetrics := by
    norm_num [run_policy_and_backtest, backtest_metrics, backtest_outcome,
      generate_signal, decision_score, holdModel, holdPrep, prepRow, holdMetrics,
      List.find?]
  have h2 : holdMetrics.final_signal = Signal.SELL ∨
      holdMetrics.final_signal = Signal.HOLD := Or.inr rfl
  exact ⟨h1, h2, claim4_sell_hold_zero _ _ _ h1 h2⟩

/-- C5: For a model built by `__init__`, the reported Sharpe ratio equals
(cumulativeReturn - 0.05/252) / 0.1 when cumulativeReturn > 0, and equals
exactly 0 whenever cumulativeReturn ≤ 0 — even though the underlying
formula is then strictly negative, hence non-zero (third conjunct). -/
theorem claim5_sharpe_clamp :
    ∀ (rows : List StockRecord) (cap : ℚ) (m : DRLTradingModel)
      (sym : String) (met : Metrics),
      mkTradingModel rows cap = Except.ok m →
      run_policy_and_backtest m sym = Except.ok met →
      (0 < met.cumulative_return →
        met.sharpe_ratio = (met.cumulative_return - (5/100)/252) / (1/10)) ∧
      (met.cumulative_return ≤ 0 → met.sharpe_ratio = 0) ∧
      (met.cumulative_return ≤ 0 →
        (met.cumulative_return - (5/100)/252) / (1/10) < 0) := by
  intro rows cap m sym met hmk hrun
  obtain ⟨hrfr, _⟩ := mk_model_fields hmk
  obtain ⟨r, hfind, rfl⟩ := run_ok_elim hrun
  rw [bm_cumulative_return, bm_sharpe, hrfr]
  refine ⟨?_, ?_, ?_⟩
  · intro hpos
    rw [if_pos hpos]
  · intro hnp
    rw [if_neg (not_lt.mpr hnp)]
  · intro hnp
    apply div_neg_of_neg_of_pos _ (by norm_num)
    have hr : (0:ℚ) < (5/100)/252 := by norm_num
    linarith

/-- Witness for C5 at the concrete HOLD dataset: cumulative return 0 and a
reported Sharpe of exactly 0. -/
theorem claim5_witness :
    mkTradingModel [holdRaw] 1000000 = Except.ok holdModel ∧
    run_policy_and_backtest holdModel "HOLDCO" = Except.ok holdMetrics ∧
    (holdMetrics.cumulative_return ≤ 0 → holdMetrics.sharpe_ratio = 0) := by
  have h1 : mkTradingModel [holdRaw] 1000000 = Except.ok holdModel := by
    norm_num [mkTradingModel, process_data, prepare_row, volume_mean,
      momentum_score, Except.map, holdRaw, holdPrep, rawRow, prepRow, holdModel]
  have h2 : run_policy_and_backtest holdModel "HOLDCO" = Except.ok holdMetrics := by
    norm_num [run_policy_and_backtest, backtest_metrics, backtest_outcome,
      generate_signal, decision_score, holdModel, holdPrep, prepRow, holdMetrics,
      List.find?]
  exact ⟨h1, h2, (claim5_sharpe_clamp _ _ _ _ _ h1 h2).2.1⟩

/-- C6: For every prepared row, momentumScore equals change30d / change365d
when |change365d| > 0.01 and equals 0 whenever |change365d| ≤ 0.01, the
boundary |change365d| = 0.01 falling on the zero branch. -/
theorem claim6_momentum_guard :
    ∀ (rows out : List StockRecord) (r : StockRecord),
      process_data rows = Except.ok out → r ∈ out →
      (|r.change365d| > 1/100 → r.momentumScore = r.change30d / r.change365d) ∧
      (|r.change365d| ≤ 1/100 → r.momentumScore = 0) := by
  intro rows out r hpd hmem
  have hout : out = rows.map (prepare_row (volume_mean rows)) := by
    simpa [process_data] using hpd.symm
  subst hout
  rcases List.mem_map.mp hmem with ⟨a, _, rfl⟩
  rw [prepare_row_change365d, prepare_row_change30d, prepare_row_momentumScore]
  constructor
  · intro habs
    unfold momentum_score
    rw [if_pos habs]
  · intro hle
    unfold momentum_score
    rw [if_neg (not_lt.mpr hle)]

/-- Witness for C6 at the boundary row with change365d = 0.01 exactly: the
momentum score is 0. -/
theorem claim6_witness :
    process_data [momRaw] = Except.ok [momPrep] ∧ momPrep ∈ [momPrep] ∧
    |momPrep.change365d| ≤ 1/100 ∧ momPrep.momentumScore = 0 := by
  have habs : |(1:ℚ)/100| = 1/100 := abs_of_nonneg (by norm_num)
  have h1 : process_data [momRaw] = Except.ok [momPrep] := by
    norm_num [process_data, prepare_row, volume_mean, momentum_score,
      momRaw, momPrep, rawRow, prepRow, habs]
  have h2 : momPrep ∈ [momPrep] := List.mem_singleton.mpr rfl
  have h3 : |momPrep.change365d| ≤ 1/100 := by
    rw [show momPrep.change365d = 1/100 from rfl, abs_le]
    constructor <;> norm_num
  exact ⟨h1, h2, h3, (claim6_momentum_guard _ _ _ h1 h2).2 h3⟩

/-- C7 counterexample: preparing a dataset with zero rows does NOT fail —
`_process_data` has no failure path at all and returns an empty prepared
dataset, so the claimed `EmptyDatasetError` rejection never happens. -/
theorem claim7_counterexample :
    process_data ([] : List StockRecord) = Except.ok [] := rfl

/-- C7 (amended): preparation of a dataset with zero rows is not rejected:
`_process_data` always succeeds (it raises no error on any numeric dataset),
and on zero rows it returns a zero-row prepared dataset, so no per-row
volumeRatio value is ever produced from the zero-row mean. -/
theorem claim7_empty_not_rejected :
    (∀ rows : List StockRecord, ∃ out, process_data rows = Except.ok out) ∧
    process_data ([] : List StockRecord) = Except.ok ([] : List StockRecord) :=
  ⟨fun _ => ⟨_, rfl⟩, rfl⟩

/-- C8: For every symbol absent from the prepared dataset, decide fails with
the symbol-not-found error, the model (and its dataset) is unchanged by the
call, and every symbol present in the dataset still yields a successful
decision. -/
theorem claim8_symbol_not_found :
    ∀ (m : DRLTradingModel) (sym : String),
      (∀ r ∈ m.df, r.symbol ≠ sym) →
      run_policy_and_backtest m sym =
        Except.error "Stock symbol not found in data." ∧
      (run_policy_state m sym).2 = m ∧
      (∀ (sym2 : String) (r2 : StockRecord), r2 ∈ m.df → r2.symbol = sym2 →
        ∃ met, run_policy_and_backtest m sym2 = Except.ok met) := by
  intro m sym hab
  have hfind : m.df.find? (fun x => x.symbol == sym) = none := by
    rw [List.find?_eq_none]
    intro x hx
    simpa using hab x hx
  refine ⟨by simp [run_policy_and_backtest, hfind], rfl, ?_⟩
  intro sym2 r2 hr2 hsym2
  have hsome : (m.df.find? (fun x => x.symbol == sym2)).isSome := by
    rw [List.find?_isSome]
    exact ⟨r2, hr2, by simp [hsym2]⟩
  obtain ⟨r', hr'⟩ := Option.isSome_iff_exists.mp hsome
  exact ⟨backtest_metrics m sym2 r', by simp [run_policy_and_backtest, hr']⟩

/-- Witness for C8: "XYZ" is absent from the one-row HOLDCO dataset; the
call fails with the not-found error, the model is unchanged, and "HOLDCO"
still succeeds. -/
theorem claim8_witness :
    (∀ r ∈ holdModel.df, r.symbol ≠ "XYZ") ∧
    run_policy_and_backtest holdModel "XYZ" =
      Except.error "Stock symbol not found in data." ∧
    (run_policy_state holdModel "XYZ").2 = holdModel ∧
    (∃ met, run_policy_and_backtest holdModel "HOLDCO" = Except.ok met) := by
  have hab : ∀ r ∈ holdModel.df, r.symbol ≠ "XYZ" := by
    intro r hr
    have : r = holdPrep := by simpa [holdModel] using hr
    subst this
    decide
  have hmem : holdPrep ∈ holdModel.df := by simp [holdModel]
  obtain ⟨h1, h2, h3⟩ := claim8_symbol_not_found holdModel "XYZ" hab
  exact ⟨hab, h1, h2, h3 "HOLDCO" holdPrep hmem rfl⟩

/-- C9: Preparation is side-effect-free and idempotent: the caller's raw
rows are unchanged by `instantiate_model` (which hands `_process_data` a
copy), and applying `_process_data` to an already-prepared dataset returns
it unchanged. -/
theorem claim9_prepare_pure_idempotent :
    (∀ (data : List StockRecord) (cap : ℚ),
      (instantiate_model data cap).2 = data) ∧
    (∀ (rows out : List StockRecord),
      process_data rows = Except.ok out → process_data out = Except.ok out) := by
  constructor
  · intro data cap
    rfl
  · intro rows out hpd
    have hout : out = rows.map (prepare_row (volume_mean rows)) := by
      simpa [process_data] using hpd.symm
    subst hout
    unfold process_data
    rw [volume_mean_map_prepare, List.map_map]
    have hcomp : prepare_row (volume_mean rows) ∘ prepare_row (volume_mean rows)
        = prepare_row (volume_mean rows) :=
      funext fun r => prepare_row_idem (volume_mean rows) r
    rw [hcomp]

/-- Witness for C9 at the concrete one-row HOLDCO dataset. -/
theorem claim9_witness :
    (instantiate_model [holdRaw] 1000000).2 = [holdRaw] ∧
    process_data [holdRaw] = Except.ok [holdPrep] ∧
    process_data [holdPrep] = Except.ok [holdPrep] := by
  have h1 : process_data [holdRaw] = Except.ok [holdPrep] := by
    norm_num [process_data, prepare_row, volume_mean, momentum_score,
      holdRaw, holdPrep, rawRow, prepRow]
  exact ⟨claim9_prepare_pure_idempotent.1 [holdRaw] 1000000, h1,
    claim9_prepare_pure_idempotent.2 _ _ h1⟩

/-- C10: A record classified BUY whose LTP exceeds 20 % of the initial
capital yields zero shares (int() of a quotient in (0,1)), and hence the
exact zero outcome of SELL/HOLD: profit 0, final capital unchanged, return
0, and a reported Sharpe of 0 — while the signal remains BUY. -/
theorem claim10_buy_unaffordable :
    ∀ (m : DRLTradingModel) (sym : String) (r : StockRecord),
      m.df.find? (fun x => x.symbol == sym) = some r →
      generate_signal r = Signal.BUY →
      0 < m.initial_capital →
      m.initial_capital * (2/10) < r.ltp →
      ∃ met, run_policy_and_backtest m sym = Except.ok met ∧
        shares_to_buy m r.ltp = 0 ∧
        met.final_signal = Signal.BUY ∧
        met.simulated_profit = 0 ∧
        met.final_capital = m.initial_capital ∧
        met.cumulative_return = 0 ∧
        met.sharpe_ratio = 0 := by
  intro m sym r hfind hsig hcap hlt
  have hnum : (0:ℚ) < m.initial_capital * (2/10) := mul_pos hcap (by norm_num)
  have hltp : (0:ℚ) < r.ltp := lt_trans hnum hlt
  have hq0 : (0:ℚ) ≤ m.initial_capital * (2/10) / r.ltp :=
    div_nonneg hnum.le hltp.le
  have hq1 : m.initial_capital * (2/10) / r.ltp < 1 := (div_lt_one hltp).mpr hlt
  have hsh : shares_to_buy m r.ltp = 0 := by
    unfold shares_to_buy pyInt
    rw [if_pos hq0]
    exact Int.floor_eq_zero_iff.mpr (Set.mem_Ico.mpr ⟨hq0, hq1⟩)
  have hout : backtest_outcome m r = (0, 0, m.initial_capital) := by
    rw [backtest_outcome_of_buy m hsig, hsh]
    norm_num
  refine ⟨backtest_metrics m sym r,
    by simp [run_policy_and_backtest, hfind], hsh, ?_, ?_, ?_, ?_, ?_⟩
  · rw [bm_final_signal]
    exact hsig
  · rw [bm_simulated_profit, hout]
  · rw [bm_final_capital, hout]
  · rw [bm_cumulative_return, hout]
  · rw [bm_sharpe, hout]
    norm_num

/-- Witness for C10 at the concrete PRICY record: BUY with score 0.53 but
LTP 300,000 against 20 % of 1,000,000. -/
theorem claim10_witness :
    pricyModel.df.find? (fun x => x.symbol == "PRICY") = some pricyPrep ∧
    generate_signal pricyPrep = Signal.BUY ∧
    (0:ℚ) < pricyModel.initial_capital ∧
    pricyModel.initial_capital * (2/10) < pricyPrep.ltp ∧
    (∃ met, run_policy_and_backtest pricyModel "PRICY" = Except.ok met ∧
      shares_to_buy pricyModel pricyPrep.ltp = 0 ∧
      met.final_signal = Signal.BUY ∧
      met.simulated_profit = 0 ∧
      met.final_capital = pricyModel.initial_capital ∧
      met.cumulative_return = 0 ∧
      met.sharpe_ratio = 0) := by
  have h1 : pricyModel.df.find? (fun x => x.symbol == "PRICY") = some pricyPrep :=
    rfl
  have h2 : generate_signal pricyPrep = Signal.BUY := by
    norm_num [generate_signal, decision_score, pricyPrep, prepRow]
  have h3 : (0:ℚ) < pricyModel.initial_capital := by norm_num [pricyModel]
  have h4 : pricyModel.initial_capital * (2/10) < pricyPrep.ltp := by
    norm_num [pricyModel, pricyPrep, prepRow]
  exact ⟨h1, h2, h3, h4, claim10_buy_unaffordable _ _ _ h1 h2 h3 h4⟩

end TradPredict
